import Mathlib

/-
Verification of the file-segment lifecycle engine (src/Common/FileSegment.h)
and the formatRow/formatRowNoNewline SQL functions (src/Functions/formatRow.cpp).

The repository ships only the header of FileSegment, so the bodies of the
segment operations are not available; they are modelled from the
natural-language specification (spec.md) and marked as such in their doc
comments.  Range, availableSize and the trivial inline accessors are embedded
from the real inline code of the header.  formatRow.cpp is embedded from the
real source.
-/

namespace CacheSeg

/-- Size of the size_t value domain: 2 ^ 64, written as a literal. -/
def u64Mod : Nat := 18446744073709551616

/-- Embedded from FileSegment.h lines 83-95: a closed interval of size_t
offsets including both boundaries.  The constructor stores the two offsets
without any validation. -/
structure Range where
  left : Nat
  right : Nat
deriving DecidableEq, Repr

/-- Embedded from FileSegment.h line 92: size_t size() const { return right - left + 1; }.
All arithmetic is size_t arithmetic, i.e. modulo 2 ^ 64; the Nat expression
below computes exactly the C++ value for left, right < 2 ^ 64. -/
def Range.size (r : Range) : Nat :=
  ((r.right + u64Mod - r.left) % u64Mod + 1) % u64Mod

/-- Mathematical (exact, non-wrapping) length of a closed interval; this is
the reading the spec gives in words: size = right - left + 1. -/
def sizeE (r : Range) : Nat := r.right - r.left + 1

/-- Embedded from FileSegment.h lines 38-70: the seven-valued segment state
(the detached flag is a separate orthogonal field). -/
inductive State where
  | DOWNLOADED
  | EMPTY
  | DOWNLOADING
  | PARTIALLY_DOWNLOADED_NO_CONTINUATION
  | PARTIALLY_DOWNLOADED
  | SKIP_CACHE
deriving DecidableEq, Repr

/-- Error kinds surfaced by the core, from spec.md section 7. -/
inductive SegErr where
  | DetachedSegment
  | NotDownloader
  | IllegalState
  | ReservationFailed
  | WriteFailed
  | Timeout
deriving DecidableEq, Repr

/-- Modelled from the spec (section 3 data model) over the fields declared in
FileSegment.h lines 200-237: the observable state of one file segment.  An
empty downloader_id string models the absent downloader (the C++ member is a
String, empty when unset); mem_write and mem_write_used model the buffered
single-shot writeInMemory/finalizeWrite pair; reservation_failed records a
denied reservation for the later complete transition. -/
structure FileSegment where
  segment_range : Range
  download_state : State
  downloader_id : String
  downloaded_size : Nat
  reserved_size : Nat
  reservation_failed : Bool
  mem_write : Option Nat
  mem_write_used : Bool
  is_detached : Bool
  is_downloaded : Bool
  file_key : Nat
deriving DecidableEq, Repr

/-- Modelled from the spec: the constructor FileSegment(offset_, size_, key_,
cache_, download_state_).  A segment is created in EMPTY (no bytes yet) or
DOWNLOADED (preloaded on index recovery); its range is [offset, offset+size-1]
and a preloaded segment starts with the full range downloaded and reserved. -/
def mkFileSegment (offset_ size_ key_ : Nat) (st : State) : FileSegment where
  segment_range := { left := offset_, right := offset_ + size_ - 1 }
  download_state := st
  downloader_id := ""
  downloaded_size := if st = State.DOWNLOADED then size_ else 0
  reserved_size := if st = State.DOWNLOADED then size_ else 0
  reservation_failed := false
  mem_write := none
  mem_write_used := false
  is_detached := false
  is_downloaded := if st = State.DOWNLOADED then true else false
  file_key := key_

/-- Embedded from FileSegment.h line 170 (declaration) and the terminal-state
markers of spec.md section 4.1: DOWNLOADED, PARTIALLY_DOWNLOADED_NO_CONTINUATION
and SKIP_CACHE are the finalized (terminal) states. -/
def hasFinalizedState (s : FileSegment) : Bool :=
  match s.download_state with
  | State.DOWNLOADED => true
  | State.PARTIALLY_DOWNLOADED_NO_CONTINUATION => true
  | State.SKIP_CACHE => true
  | _ => false

/-- Embedded from FileSegment.h line 165:
size_t availableSize() const { return reserved_size - downloaded_size; }. -/
def availableSize (s : FileSegment) : Nat := s.reserved_size - s.downloaded_size

/-- Embedded from FileSegment.h line 132: lock-free observation of the
is_downloaded atomic. -/
def isDownloaded (s : FileSegment) : Bool := s.is_downloaded

/-- Embedded from FileSegment.h lines 136-138 (declaration): the current
downloaded byte count. -/
def getDownloadedSize (s : FileSegment) : Nat := s.downloaded_size

/-- Modelled from the spec (section 4.2): getDownloader returns the stored
downloader id. -/
def getDownloader (s : FileSegment) : String := s.downloader_id

/-- Modelled from the spec (sections 4.2 and 4.5): any operation on a
detached segment other than pure observation fails with DetachedSegment;
this is the gate implemented by throwIfDetached / assertNotDetached. -/
def assertNotDetached (s : FileSegment) : Except SegErr Unit :=
  if s.is_detached then Except.error SegErr.DetachedSegment else Except.ok ()

/-- Modelled from the spec (section 4.2): if the segment is EMPTY or
PARTIALLY_DOWNLOADED the caller installs its id and the segment becomes
DOWNLOADING and the caller's own id is returned; otherwise the existing
downloader id is returned, or the sentinel "None" when there is no
downloader.  The caller id is the value of getCallerId(), an opaque
nonempty string, passed here as a parameter. -/
def getOrSetDownloader (caller : String) (s : FileSegment) :
    Except SegErr (String × FileSegment) :=
  if s.is_detached then Except.error SegErr.DetachedSegment
  else if s.download_state = State.EMPTY ∨ s.download_state = State.PARTIALLY_DOWNLOADED then
    Except.ok (caller, { s with download_state := State.DOWNLOADING, downloader_id := caller })
  else if s.downloader_id ≠ "" then
    Except.ok (s.downloader_id, s)
  else
    Except.ok ("None", s)

/-- Modelled from the spec (section 4.3): reserve(n) is downloader-only and
asks CacheCore to extend the reserved budget by n minus the available bytes
when n exceeds them; the CacheCore pass/fail decision is the granted
parameter.  A denied reservation records the reservation-failure flag. -/
def reserve (caller : String) (n : Nat) (granted : Bool) (s : FileSegment) :
    Except SegErr (Bool × FileSegment) :=
  if s.is_detached then Except.error SegErr.DetachedSegment
  else if s.downloader_id ≠ caller then Except.error SegErr.NotDownloader
  else if n ≤ s.reserved_size - s.downloaded_size then Except.ok (true, s)
  else if granted then
    Except.ok (true,
      { s with reserved_size :=
          s.reserved_size + (n - (s.reserved_size - s.downloaded_size)) })
  else
    Except.ok (false, { s with reservation_failed := true })

/-- Modelled from the spec (section 4.3): write is downloader-only with
precondition offset == range.left + downloaded_size and n ≤ available; a
write reaching past reserved_size is a ReservationFailed error, and a write
reaching past the closed range [left, right] (which would break the
downloaded_size ≤ range.size() invariant of section 3) is a write failure.
On success downloaded_size advances by n. -/
def write (caller : String) (n : Nat) (offset_ : Nat) (s : FileSegment) :
    Except SegErr FileSegment :=
  if s.is_detached then Except.error SegErr.DetachedSegment
  else if s.downloader_id ≠ caller then Except.error SegErr.NotDownloader
  else if offset_ ≠ s.segment_range.left + s.downloaded_size then
    Except.error SegErr.IllegalState
  else if s.reserved_size - s.downloaded_size < n then
    Except.error SegErr.ReservationFailed
  else if s.segment_range.size < s.downloaded_size + n then
    Except.error SegErr.WriteFailed
  else
    Except.ok { s with downloaded_size := s.downloaded_size + n }

/-- Modelled from the spec (section 4.3): writeInMemory buffers a single
deferred write; calling it twice is an error, and reservation is required
before it. -/
def writeInMemory (caller : String) (n : Nat) (s : FileSegment) :
    Except SegErr FileSegment :=
  if s.is_detached then Except.error SegErr.DetachedSegment
  else if s.downloader_id ≠ caller then Except.error SegErr.NotDownloader
  else if s.mem_write_used then Except.error SegErr.IllegalState
  else if s.reserved_size - s.downloaded_size < n then
    Except.error SegErr.ReservationFailed
  else
    Except.ok { s with mem_write := some n, mem_write_used := true }

/-- Modelled from the spec (section 4.3): finalizeWrite commits the single
buffered write with the same bounds discipline as write, returning the new
downloaded size; calling it without a pending buffered write (or twice) is
an error. -/
def finalizeWrite (caller : String) (s : FileSegment) :
    Except SegErr (Nat × FileSegment) :=
  if s.is_detached then Except.error SegErr.DetachedSegment
  else if s.downloader_id ≠ caller then Except.error SegErr.NotDownloader
  else if s.mem_write = none then Except.error SegErr.IllegalState
  else if s.reserved_size - s.downloaded_size < s.mem_write.getD 0 then
    Except.error SegErr.ReservationFailed
  else if s.segment_range.size < s.downloaded_size + s.mem_write.getD 0 then
    Except.error SegErr.WriteFailed
  else
    Except.ok (s.downloaded_size + s.mem_write.getD 0,
      { s with downloaded_size := s.downloaded_size + s.mem_write.getD 0,
               mem_write := none })

/-- Modelled from the spec (section 4.5): setDownloaded marks the segment
DOWNLOADED, mirrors the transition into the is_downloaded atomic and clears
the downloader id. -/
def setDownloaded (s : FileSegment) : FileSegment :=
  { s with download_state := State.DOWNLOADED, is_downloaded := true, downloader_id := "" }

/-- Modelled from the spec (section 4.5): the explicit, downloader-only
complete(state).  DOWNLOADED requires downloaded_size == range.size();
PARTIALLY_DOWNLOADED_NO_CONTINUATION requires the reservation-failure flag;
every other requested state is rejected. -/
def complete (caller : String) (st : State) (s : FileSegment) :
    Except SegErr FileSegment :=
  if s.is_detached then Except.error SegErr.DetachedSegment
  else if s.downloader_id ≠ caller then Except.error SegErr.NotDownloader
  else if st = State.DOWNLOADED then
    if s.downloaded_size = s.segment_range.size then Except.ok (setDownloaded s)
    else Except.error SegErr.IllegalState
  else if st = State.PARTIALLY_DOWNLOADED_NO_CONTINUATION then
    if s.reservation_failed then
      Except.ok { s with
        download_state := State.PARTIALLY_DOWNLOADED_NO_CONTINUATION,
        downloader_id := "" }
    else Except.error SegErr.IllegalState
  else Except.error SegErr.IllegalState

/-- Modelled from the spec (section 4.2): resetDownloader clears the
downloader id and sets the state to PARTIALLY_DOWNLOADED, keeping a terminal
state when already terminal. -/
def resetDownloader (caller : String) (s : FileSegment) :
    Except SegErr FileSegment :=
  if s.is_detached then Except.error SegErr.DetachedSegment
  else if s.downloader_id ≠ caller then Except.error SegErr.NotDownloader
  else if hasFinalizedState s then Except.ok { s with downloader_id := "" }
  else
    Except.ok { s with downloader_id := "", download_state := State.PARTIALLY_DOWNLOADED }

/-- Modelled from the spec (section 4.5): detach sets the sticky detached
flag and freezes every other field. -/
def detach (s : FileSegment) : FileSegment := { s with is_detached := true }

/-- Modelled from the spec (section 4.4): wait blocks (boundedly) on the
condition variable while the segment is DOWNLOADING and bytes are missing,
and returns the state observed on wakeup or timeout; it raises no error.
Blocking itself is outside this sequential model, so wait returns the state
observed at the call. -/
def wait (s : FileSegment) : Except SegErr State := Except.ok s.download_state

/-- The per-segment invariant of spec.md sections 3 and 8: a well-formed
range, P1 (reserved at least downloaded), P2 (downloaded within the range),
the is_downloaded mirror and size equation of P3 in the direction the
operations maintain, and P4 (downloader id set exactly in DOWNLOADING). -/
def Inv (s : FileSegment) : Prop :=
  s.segment_range.left ≤ s.segment_range.right ∧
  s.segment_range.right < u64Mod ∧
  s.segment_range.right - s.segment_range.left + 1 < u64Mod ∧
  s.downloaded_size ≤ s.reserved_size ∧
  s.downloaded_size ≤ sizeE s.segment_range ∧
  (s.is_downloaded = true ↔ s.download_state = State.DOWNLOADED) ∧
  (s.download_state = State.DOWNLOADED → s.downloaded_size = sizeE s.segment_range) ∧
  (s.downloader_id ≠ "" ↔ s.download_state = State.DOWNLOADING)

lemma inv_size_eq {s : FileSegment} (hs : Inv s) :
    s.segment_range.size = sizeE s.segment_range := by
  obtain ⟨h1, h2, h3, -⟩ := hs
  unfold Range.size sizeE u64Mod at *
  omega

/-- One successful segment operation, with the caller id an arbitrary
nonempty string (getCallerId always yields a nonempty "threadId:sequence"
identifier).  Failing operations leave the segment unchanged, so only the
ok results move the state. -/
inductive Step : FileSegment → FileSegment → Prop where
  | stepGetOrSet (s s' : FileSegment) (c r : String) :
      c ≠ "" → getOrSetDownloader c s = Except.ok (r, s') → Step s s'
  | stepReserve (s s' : FileSegment) (c : String) (n : Nat) (g b : Bool) :
      c ≠ "" → reserve c n g s = Except.ok (b, s') → Step s s'
  | stepWrite (s s' : FileSegment) (c : String) (n off : Nat) :
      c ≠ "" → write c n off s = Except.ok s' → Step s s'
  | stepWriteInMemory (s s' : FileSegment) (c : String) (n : Nat) :
      c ≠ "" → writeInMemory c n s = Except.ok s' → Step s s'
  | stepFinalizeWrite (s s' : FileSegment) (c : String) (m : Nat) :
      c ≠ "" → finalizeWrite c s = Except.ok (m, s') → Step s s'
  | stepComplete (s s' : FileSegment) (c : String) (st : State) :
      c ≠ "" → complete c st s = Except.ok s' → Step s s'
  | stepReset (s s' : FileSegment) (c : String) :
      c ≠ "" → resetDownloader c s = Except.ok s' → Step s s'
  | stepDetach (s : FileSegment) : Step s (detach s)
  | stepWait (s : FileSegment) : Step s s

/-- Segment states reachable from a freshly constructed segment (spec.md
section 3 lifecycle: created EMPTY, or DOWNLOADED on index recovery) by any
sequence of successful operations. -/
inductive Reachable : FileSegment → Prop where
  | init (offset_ size_ key_ : Nat) (st : State) :
      1 ≤ size_ → offset_ + size_ < u64Mod →
      (st = State.EMPTY ∨ st = State.DOWNLOADED) →
      Reachable (mkFileSegment offset_ size_ key_ st)
  | step {s s' : FileSegment} : Reachable s → Step s s' → Reachable s'

lemma inv_init (offset_ size_ key_ : Nat) (st : State)
    (h1 : 1 ≤ size_) (h2 : offset_ + size_ < u64Mod)
    (h3 : st = State.EMPTY ∨ st = State.DOWNLOADED) :
    Inv (mkFileSegment offset_ size_ key_ st) := by
  rcases h3 with h3 | h3 <;> subst h3 <;>
    simp [Inv, mkFileSegment, sizeE] <;> omega

lemma inv_step {s s' : FileSegment} (hs : Inv s) (h : Step s s') : Inv s' := by
  have hsz := inv_size_eq hs
  obtain ⟨r1, r2, r3, p1, p2, p3a, p3b, p4⟩ := hs
  cases h with
  | stepGetOrSet s' c r hc heq =>
    unfold getOrSetDownloader at heq
    split_ifs at heq with h1 h2 h3 <;> simp at heq
    · obtain ⟨-, heq⟩ := heq
      subst heq
      rcases h2 with h2 | h2 <;> refine ⟨r1, r2, r3, p1, p2, ?_, ?_, ?_⟩ <;> simp_all
    · obtain ⟨-, heq⟩ := heq
      subst heq
      exact ⟨r1, r2, r3, p1, p2, p3a, p3b, p4⟩
    · obtain ⟨-, heq⟩ := heq
      subst heq
      exact ⟨r1, r2, r3, p1, p2, p3a, p3b, p4⟩
  | stepReserve s' c n g b hc heq =>
    unfold reserve at heq
    split_ifs at heq with h1 h2 h3 h4 <;> simp at heq
    · obtain ⟨-, heq⟩ := heq
      subst heq
      exact ⟨r1, r2, r3, p1, p2, p3a, p3b, p4⟩
    · obtain ⟨-, heq⟩ := heq
      subst heq
      refine ⟨r1, r2, r3, ?_, p2, p3a, p3b, p4⟩
      simp only
      omega
    · obtain ⟨-, heq⟩ := heq
      subst heq
      exact ⟨r1, r2, r3, p1, p2, p3a, p3b, p4⟩
  | stepWrite s' c n off hc heq =>
    unfold write at heq
    split_ifs at heq with h1 h2 h3 h4 h5 <;> simp at heq
    subst heq
    rw [hsz] at h5
    refine ⟨r1, r2, r3, ?_, ?_, p3a, ?_, p4⟩
    · simp only
      omega
    · simp only
      omega
    · intro hdl
      have := p3b hdl
      simp only at hdl ⊢
      omega
  | stepWriteInMemory s' c n hc heq =>
    unfold writeInMemory at heq
    split_ifs at heq with h1 h2 h3 h4 <;> simp at heq
    subst heq
    exact ⟨r1, r2, r3, p1, p2, p3a, p3b, p4⟩
  | stepFinalizeWrite s' c m hc heq =>
    unfold finalizeWrite at heq
    split_ifs at heq with h1 h2 h3 h4 h5 <;> simp at heq
    obtain ⟨-, heq⟩ := heq
    subst heq
    rw [hsz] at h5
    refine ⟨r1, r2, r3, ?_, ?_, p3a, ?_, p4⟩
    · simp only
      omega
    · simp only
      omega
    · intro hdl
      have := p3b hdl
      simp only at hdl ⊢
      omega
  | stepComplete s' c st hc heq =>
    unfold complete at heq
    split_ifs at heq with h1 h2 h3 h4 h5 h6 <;> simp at heq
    · -- requested DOWNLOADED with the full range downloaded
      subst heq
      rw [hsz] at h4
      refine ⟨r1, r2, r3, p1, p2, ?_, ?_, ?_⟩ <;> simp [setDownloaded, h4]
    · -- requested PARTIALLY_DOWNLOADED_NO_CONTINUATION after a denied reservation
      subst heq
      have hdl : s.downloader_id = c := by
        by_contra hne
        exact h2 hne
      have hdning : s.download_state = State.DOWNLOADING := by
        apply p4.mp
        rw [hdl]
        exact hc
      refine ⟨r1, r2, r3, p1, p2, ?_, ?_, ?_⟩ <;> simp_all
  | stepReset s' c hc heq =>
    unfold resetDownloader at heq
    have hdning : s.download_state = State.DOWNLOADING := by
      apply p4.mp
      split_ifs at heq with h1 h2 h3 <;> simp at heq
      all_goals
        rw [show s.downloader_id = c by by_contra hne; exact h2 hne]
        exact hc
    split_ifs at heq with h1 h2 h3 <;> simp at heq
    · subst heq
      refine ⟨r1, r2, r3, p1, p2, ?_, ?_, ?_⟩ <;> simp_all [hasFinalizedState]
    · subst heq
      refine ⟨r1, r2, r3, p1, p2, ?_, ?_, ?_⟩ <;> simp_all
  | stepDetach =>
    exact ⟨r1, r2, r3, p1, p2, p3a, p3b, p4⟩
  | stepWait =>
    exact ⟨r1, r2, r3, p1, p2, p3a, p3b, p4⟩

lemma reachable_inv {s : FileSegment} (h : Reachable s) : Inv s := by
  induction h with
  | init offset_ size_ key_ st h1 h2 h3 => exact inv_init offset_ size_ key_ st h1 h2 h3
  | step _ hstep ih => exact inv_step ih hstep

lemma step_mono {a b : FileSegment} (h : Step a b) :
    getDownloadedSize a ≤ getDownloadedSize b := by
  unfold getDownloadedSize
  cases h with
  | stepGetOrSet s' c r hc heq =>
    unfold getOrSetDownloader at heq
    split_ifs at heq <;> simp at heq <;> obtain ⟨-, heq⟩ := heq <;> subst heq <;>
      exact le_rfl
  | stepReserve s' c n g b hc heq =>
    unfold reserve at heq
    split_ifs at heq <;> simp at heq <;> obtain ⟨-, heq⟩ := heq <;> subst heq <;>
      exact le_rfl
  | stepWrite s' c n off hc heq =>
    unfold write at heq
    split_ifs at heq <;> simp at heq
    subst heq
    exact Nat.le_add_right _ _
  | stepWriteInMemory s' c n hc heq =>
    unfold writeInMemory at heq
    split_ifs at heq <;> simp at heq
    subst heq
    exact le_rfl
  | stepFinalizeWrite s' c m hc heq =>
    unfold finalizeWrite at heq
    split_ifs at heq <;> simp at heq
    obtain ⟨-, heq⟩ := heq
    subst heq
    exact Nat.le_add_right _ _
  | stepComplete s' c st hc heq =>
    unfold complete at heq
    split_ifs at heq <;> simp at heq <;> subst heq <;> exact le_rfl
  | stepReset s' c hc heq =>
    unfold resetDownloader at heq
    split_ifs at heq <;> simp at heq <;> subst heq <;> exact le_rfl
  | stepDetach => exact le_rfl
  | stepWait => exact le_rfl

/-- C1: getOrSetDownloader never blocks (it is a total function) and returns
a string equal to the segment's downloader_id after the call: from EMPTY or
PARTIALLY_DOWNLOADED the caller installs its own id and the segment becomes
DOWNLOADING; in every other state the existing downloader id is returned, or
the sentinel "None" when there is no downloader and the state is terminal. -/
theorem C1_getOrSetDownloader_contract (s : FileSegment) (c : String)
    (hr : Reachable s) (hd : s.is_detached = false) (hc : c ≠ "") :
    ∃ r s', getOrSetDownloader c s = Except.ok (r, s') ∧
      (r = s'.downloader_id ∨ (r = "None" ∧ s'.downloader_id = "")) ∧
      ((s.download_state = State.EMPTY ∨ s.download_state = State.PARTIALLY_DOWNLOADED) →
        r = c ∧ s'.downloader_id = c ∧ s'.download_state = State.DOWNLOADING) ∧
      (¬(s.download_state = State.EMPTY ∨ s.download_state = State.PARTIALLY_DOWNLOADED) →
        s' = s ∧ (s.downloader_id ≠ "" → r = s.downloader_id) ∧
        (s.downloader_id = "" → r = "None" ∧ hasFinalizedState s = true)) := by
  have hinv := reachable_inv hr
  obtain ⟨-, -, -, -, -, -, -, p4⟩ := hinv
  by_cases h2 : s.download_state = State.EMPTY ∨ s.download_state = State.PARTIALLY_DOWNLOADED
  · refine ⟨c, { s with download_state := State.DOWNLOADING, downloader_id := c },
      ?_, ?_, ?_, ?_⟩
    · simp [getOrSetDownloader, hd, h2]
    · left
      rfl
    · intro _
      exact ⟨rfl, rfl, rfl⟩
    · intro hn
      exact absurd h2 hn
  · by_cases h3 : s.downloader_id = ""
    · refine ⟨"None", s, ?_, ?_, ?_, ?_⟩
      · simp [getOrSetDownloader, hd, h2, h3]
      · right
        exact ⟨rfl, h3⟩
      · intro hcontra
        exact absurd hcontra h2
      · intro _
        refine ⟨rfl, fun hne => absurd h3 hne, fun _ => ⟨rfl, ?_⟩⟩
        have hnd : ¬ s.download_state = State.DOWNLOADING := by
          intro hdd
          exact (p4.mpr hdd) h3
        cases hst : s.download_state <;> simp_all [hasFinalizedState]
    · refine ⟨s.downloader_id, s, ?_, ?_, ?_, ?_⟩
      · simp [getOrSetDownloader, hd, h2, h3]
      · left
        rfl
      · intro hcontra
        exact absurd hcontra h2
      · intro _
        exact ⟨rfl, fun _ => rfl, fun he => absurd he h3⟩

theorem C1_witness : ∃ r s',
    getOrSetDownloader "42:1" (mkFileSegment 3 5 7 State.EMPTY) = Except.ok (r, s') ∧
    (r = s'.downloader_id ∨ (r = "None" ∧ s'.downloader_id = "")) ∧
    (((mkFileSegment 3 5 7 State.EMPTY).download_state = State.EMPTY ∨
      (mkFileSegment 3 5 7 State.EMPTY).download_state = State.PARTIALLY_DOWNLOADED) →
      r = "42:1" ∧ s'.downloader_id = "42:1" ∧ s'.download_state = State.DOWNLOADING) ∧
    (¬((mkFileSegment 3 5 7 State.EMPTY).download_state = State.EMPTY ∨
       (mkFileSegment 3 5 7 State.EMPTY).download_state = State.PARTIALLY_DOWNLOADED) →
      s' = mkFileSegment 3 5 7 State.EMPTY ∧
      ((mkFileSegment 3 5 7 State.EMPTY).downloader_id ≠ "" →
        r = (mkFileSegment 3 5 7 State.EMPTY).downloader_id) ∧
      ((mkFileSegment 3 5 7 State.EMPTY).downloader_id = "" →
        r = "None" ∧ hasFinalizedState (mkFileSegment 3 5 7 State.EMPTY) = true)) :=
  C1_getOrSetDownloader_contract (mkFileSegment 3 5 7 State.EMPTY) "42:1"
    (Reachable.init 3 5 7 State.EMPTY (by decide) (by decide) (Or.inl rfl))
    rfl (by decide)

def c2s0 : FileSegment := mkFileSegment 0 1 0 State.EMPTY

def c2s1 : FileSegment :=
  { segment_range := { left := 0, right := 0 }, download_state := State.DOWNLOADING,
    downloader_id := "A", downloaded_size := 0, reserved_size := 0,
    reservation_failed := false, mem_write := none, mem_write_used := false,
    is_detached := false, is_downloaded := false, file_key := 0 }

def c2s2 : FileSegment := { c2s1 with reserved_size := 1 }

def c2s3 : FileSegment := { c2s2 with downloaded_size := 1 }

/-- C2 counterexample: a reachable segment (EMPTY segment of size 1, whose
downloader reserves and writes the single byte but has not yet called
complete) has downloaded_size equal to range.size() while its state is still
DOWNLOADING and is_downloaded is still false, so the three conditions of the
claim are not pairwise equivalent. -/
theorem C2_counterexample :
    Reachable c2s3 ∧
    c2s3.downloaded_size = c2s3.segment_range.size ∧
    c2s3.download_state ≠ State.DOWNLOADED ∧
    c2s3.is_downloaded = false := by
  refine ⟨?_, by decide, by decide, by decide⟩
  have h0 : Reachable c2s0 :=
    Reachable.init 0 1 0 State.EMPTY (by decide) (by decide) (Or.inl rfl)
  have h1 : Reachable c2s1 :=
    Reachable.step h0 (Step.stepGetOrSet c2s0 c2s1 "A" "A" (by decide) rfl)
  have h2 : Reachable c2s2 :=
    Reachable.step h1 (Step.stepReserve c2s1 c2s2 "A" 1 true true (by decide) rfl)
  exact Reachable.step h2 (Step.stepWrite c2s2 c2s3 "A" 1 0 (by decide) rfl)

/-- C2 amended: in every reachable segment state, state == DOWNLOADED is
equivalent to is_downloaded, and state == DOWNLOADED implies
downloaded_size == range.size(); the remaining implication (full
downloaded_size forces DOWNLOADED) does not hold, because a downloader that
has written the whole range stays DOWNLOADING until complete. -/
theorem C2_amended_downloaded_equiv (s : FileSegment) (h : Reachable s) :
    (s.download_state = State.DOWNLOADED ↔ isDownloaded s = true) ∧
    (s.download_state = State.DOWNLOADED →
      getDownloadedSize s = s.segment_range.size) := by
  have hinv := reachable_inv h
  have hsz := inv_size_eq hinv
  obtain ⟨-, -, -, -, -, p3a, p3b, -⟩ := hinv
  refine ⟨p3a.symm, fun hdd => ?_⟩
  unfold getDownloadedSize
  rw [hsz]
  exact p3b hdd

theorem C2_witness :
    ((mkFileSegment 0 1 0 State.DOWNLOADED).download_state = State.DOWNLOADED ↔
      isDownloaded (mkFileSegment 0 1 0 State.DOWNLOADED) = true) ∧
    ((mkFileSegment 0 1 0 State.DOWNLOADED).download_state = State.DOWNLOADED →
      getDownloadedSize (mkFileSegment 0 1 0 State.DOWNLOADED) =
        (mkFileSegment 0 1 0 State.DOWNLOADED).segment_range.size) :=
  C2_amended_downloaded_equiv (mkFileSegment 0 1 0 State.DOWNLOADED)
    (Reachable.init 0 1 0 State.DOWNLOADED (by decide) (by decide) (Or.inr rfl))

/-- C3: in every reachable segment state reserved_size is at least
downloaded_size and downloaded_size is at most range.size(), and
availableSize() = reserved_size - downloaded_size is an exact difference
(it never underflows); every operation preserves this because every
reachable state satisfies it. -/
theorem C3_reserved_downloaded_bounds (s : FileSegment) (h : Reachable s) :
    getDownloadedSize s ≤ s.reserved_size ∧
    getDownloadedSize s ≤ s.segment_range.size ∧
    availableSize s + getDownloadedSize s = s.reserved_size := by
  have hinv := reachable_inv h
  have hsz := inv_size_eq hinv
  obtain ⟨-, -, -, p1, p2, -⟩ := hinv
  refine ⟨p1, ?_, ?_⟩
  · unfold getDownloadedSize
    rw [hsz]
    exact p2
  · unfold availableSize getDownloadedSize
    omega

theorem C3_witness :
    getDownloadedSize (mkFileSegment 2 3 1 State.EMPTY) ≤
      (mkFileSegment 2 3 1 State.EMPTY).reserved_size ∧
    getDownloadedSize (mkFileSegment 2 3 1 State.EMPTY) ≤
      (mkFileSegment 2 3 1 State.EMPTY).segment_range.size ∧
    availableSize (mkFileSegment 2 3 1 State.EMPTY) +
      getDownloadedSize (mkFileSegment 2 3 1 State.EMPTY) =
        (mkFileSegment 2 3 1 State.EMPTY).reserved_size :=
  C3_reserved_downloaded_bounds (mkFileSegment 2 3 1 State.EMPTY)
    (Reachable.init 2 3 1 State.EMPTY (by decide) (by decide) (Or.inl rfl))

/-- C4: each mutating operation (getOrSetDownloader, reserve, write,
complete) raises the DetachedSegment error exactly when the segment is
detached: it is always raised on a detached segment and never on a
non-detached one. -/
theorem C4_detached_gate (s : FileSegment) (c : String) (n off : Nat)
    (g : Bool) (st : State) :
    (getOrSetDownloader c s = Except.error SegErr.DetachedSegment ↔
      s.is_detached = true) ∧
    (reserve c n g s = Except.error SegErr.DetachedSegment ↔
      s.is_detached = true) ∧
    (write c n off s = Except.error SegErr.DetachedSegment ↔
      s.is_detached = true) ∧
    (complete c st s = Except.error SegErr.DetachedSegment ↔
      s.is_detached = true) := by
  refine ⟨?_, ?_, ?_, ?_⟩
  · unfold getOrSetDownloader
    split_ifs <;> simp_all
  · unfold reserve
    split_ifs <;> simp_all
  · unfold write
    split_ifs <;> simp_all
  · unfold complete
    split_ifs <;> simp_all

theorem C4_witness :
    (getOrSetDownloader "A" (detach (mkFileSegment 0 1 0 State.EMPTY)) =
        Except.error SegErr.DetachedSegment ↔
      (detach (mkFileSegment 0 1 0 State.EMPTY)).is_detached = true) ∧
    (reserve "A" 1 true (detach (mkFileSegment 0 1 0 State.EMPTY)) =
        Except.error SegErr.DetachedSegment ↔
      (detach (mkFileSegment 0 1 0 State.EMPTY)).is_detached = true) ∧
    (write "A" 1 0 (detach (mkFileSegment 0 1 0 State.EMPTY)) =
        Except.error SegErr.DetachedSegment ↔
      (detach (mkFileSegment 0 1 0 State.EMPTY)).is_detached = true) ∧
    (complete "A" State.DOWNLOADED (detach (mkFileSegment 0 1 0 State.EMPTY)) =
        Except.error SegErr.DetachedSegment ↔
      (detach (mkFileSegment 0 1 0 State.EMPTY)).is_detached = true) :=
  C4_detached_gate (detach (mkFileSegment 0 1 0 State.EMPTY)) "A" 1 0 true
    State.DOWNLOADED

/-- C5: wait raises no error and returns the observed state; on a reachable
segment whose is_downloaded mirror is set, the returned state is DOWNLOADED.
The bounded blocking itself is temporal behaviour outside this model; the
returned value is the segment state, never a Timeout error. -/
theorem C5_wait_returns_state (s : FileSegment) (h : Reachable s) :
    wait s = Except.ok s.download_state ∧
    (isDownloaded s = true → wait s = Except.ok State.DOWNLOADED) := by
  have hinv := reachable_inv h
  obtain ⟨-, -, -, -, -, p3a, -⟩ := hinv
  refine ⟨rfl, fun hb => ?_⟩
  simp [wait, p3a.mp hb]

theorem C5_witness :
    wait (mkFileSegment 0 4 2 State.DOWNLOADED) =
      Except.ok (mkFileSegment 0 4 2 State.DOWNLOADED).download_state ∧
    (isDownloaded (mkFileSegment 0 4 2 State.DOWNLOADED) = true →
      wait (mkFileSegment 0 4 2 State.DOWNLOADED) = Except.ok State.DOWNLOADED) :=
  C5_wait_returns_state (mkFileSegment 0 4 2 State.DOWNLOADED)
    (Reachable.init 0 4 2 State.DOWNLOADED (by decide) (by decide) (Or.inr rfl))

/-- C6: across any sequence of successful segment operations, including
downloader handoffs, getDownloadedSize never decreases. -/
theorem C6_downloaded_monotone (s s' : FileSegment)
    (h : Relation.ReflTransGen Step s s') :
    getDownloadedSize s ≤ getDownloadedSize s' := by
  induction h with
  | refl => exact le_rfl
  | tail hab hbc ih => exact le_trans ih (step_mono hbc)

def c6s0 : FileSegment := mkFileSegment 0 2 0 State.EMPTY

def c6s1 : FileSegment :=
  { segment_range := { left := 0, right := 1 }, download_state := State.DOWNLOADING,
    downloader_id := "A", downloaded_size := 0, reserved_size := 0,
    reservation_failed := false, mem_write := none, mem_write_used := false,
    is_detached := false, is_downloaded := false, file_key := 0 }

def c6s2 : FileSegment := { c6s1 with reserved_size := 1 }

def c6s3 : FileSegment := { c6s2 with downloaded_size := 1 }

def c6s4 : FileSegment :=
  { c6s3 with downloader_id := "", download_state := State.PARTIALLY_DOWNLOADED }

def c6s5 : FileSegment :=
  { c6s4 with download_state := State.DOWNLOADING, downloader_id := "B" }

theorem C6_witness : getDownloadedSize c6s0 ≤ getDownloadedSize c6s5 :=
  C6_downloaded_monotone c6s0 c6s5
    (Relation.ReflTransGen.tail
      (Relation.ReflTransGen.tail
        (Relation.ReflTransGen.tail
          (Relation.ReflTransGen.tail
            (Relation.ReflTransGen.single
              (Step.stepGetOrSet c6s0 c6s1 "A" "A" (by decide) rfl))
            (Step.stepReserve c6s1 c6s2 "A" 1 true true (by decide) rfl))
          (Step.stepWrite c6s2 c6s3 "A" 1 0 (by decide) rfl))
        (Step.stepReset c6s3 c6s4 "A" (by decide) rfl))
      (Step.stepGetOrSet c6s4 c6s5 "B" "B" (by decide) rfl))

/-- C7 counterexample: Range(0, 2^64 - 1) is constructed with left ≤ right,
yet size() evaluates to 0 rather than the exact integer
right - left + 1 = 2^64, because the size_t addition of 1 wraps. -/
theorem C7_counterexample :
    Range.size { left := 0, right := 18446744073709551615 } = 0 ∧
    ¬ Range.size { left := 0, right := 18446744073709551615 } =
        18446744073709551615 - 0 + 1 := by
  constructor
  · decide
  · decide

/-- C7 amended: for every Range constructed with left ≤ right such that the
exact length right - left + 1 is below 2^64, size() equals the exact
mathematical integer right - left + 1 (the only excluded case is
left = 0, right = 2^64 - 1, where the size_t computation wraps to 0). -/
theorem C7_amended_range_size (l r : Nat) (h1 : l ≤ r) (h2 : r < u64Mod)
    (h3 : r - l + 1 < u64Mod) :
    Range.size { left := l, right := r } = sizeE { left := l, right := r } ∧
    sizeE { left := l, right := r } = r - l + 1 := by
  constructor
  · unfold Range.size sizeE u64Mod at *
    dsimp only
    rw [(by omega :
      (r + 18446744073709551616 - l) % 18446744073709551616 = r - l)]
    omega
  · rfl

theorem C7_witness :
    Range.size { left := 3, right := 7 } = sizeE { left := 3, right := 7 } ∧
    sizeE { left := 3, right := 7 } = 7 - 3 + 1 :=
  C7_amended_range_size 3 7 (by decide) (by decide) (by decide)

/-- C8: the Range constructor performs no validation, so a Range with
left > right is constructible, and size() is computed modulo 2^64:
Range(5, 3).size() = 2^64 - 1, Range(0, 2^64 - 1).size() = 0, and in general
for left > right the result is the integer right - left + 1 modulo 2^64. -/
theorem C8_range_wraparound :
    Range.size { left := 5, right := 3 } = 18446744073709551615 ∧
    Range.size { left := 0, right := 18446744073709551615 } = 0 ∧
    (∀ l r : Nat, r < l → l < u64Mod →
      (Range.size { left := l, right := r } : Int) =
        ((r : Int) - (l : Int) + 1) % (18446744073709551616 : Int)) := by
  refine ⟨by decide, by decide, ?_⟩
  intro l r hrl hl
  unfold Range.size u64Mod at *
  dsimp only at *
  rw [Nat.mod_eq_of_lt
    (by omega : r + 18446744073709551616 - l < 18446744073709551616)]
  omega

theorem C8_witness :
    (Range.size { left := 5, right := 3 } : Int) =
      ((3 : Int) - (5 : Int) + 1) % (18446744073709551616 : Int) :=
  C8_range_wraparound.2.2 5 3 (by decide) (by decide)

end CacheSeg

namespace FmtRow

/-- Embedded from formatRow.cpp lines 63-74: the per-row callback that runs
after the row output format has written one row into the shared buffer
(bytes are modelled as Nat, the newline byte is 10 and the null byte is 0).
For formatRowNoNewline a trailing newline byte is overwritten in place by a
null byte and nothing is appended (and nothing at all is written when the
buffer does not end in a newline); for formatRow a null byte is appended.
The second component is offsets[row] = buffer.count() after the callback. -/
def rowCallback (noNewline : Bool) (buf : List Nat) : List Nat × Nat :=
  if noNewline then
    if buf.getLast? = some 10 then
      (buf.dropLast ++ [0], (buf.dropLast ++ [0]).length)
    else (buf, buf.length)
  else (buf ++ [0], (buf ++ [0]).length)

/-- One row of FunctionFormatRow::executeImpl: the row output format appends
the row's formatted bytes to the buffer, then the callback runs. -/
def formatRowStep (noNewline : Bool) (buf row : List Nat) : List Nat × Nat :=
  rowCallback noNewline (buf ++ row)

/-- The whole row loop of executeImpl: the final character buffer and the
offsets column accumulated over the formatted rows. -/
def runFormatRow (noNewline : Bool) (rows : List (List Nat)) :
    List Nat × List Nat :=
  rows.foldl (fun acc row =>
    ((formatRowStep noNewline acc.1 row).1,
     acc.2 ++ [(formatRowStep noNewline acc.1 row).2])) ([], [])

/-- Error codes of formatRow.cpp lines 17-23. -/
inductive FRErr where
  | NUMBER_OF_ARGUMENTS_DOESNT_MATCH
  | ILLEGAL_TYPE_OF_ARGUMENT
  | UNKNOWN_FORMAT
  | BAD_ARGUMENTS
deriving DecidableEq, Repr

/-- One argument column as seen by FormatRowOverloadResolver::buildImpl:
checkAndGetColumnConst of ColumnString succeeds exactly when the column is a
constant string column, yielding its value. -/
structure ColumnArg where
  constString : Option String
deriving DecidableEq

/-- Embedded from formatRow.cpp lines 104-118 together with the
FunctionFormatRow constructor (lines 39-43): fewer than two arguments is
NUMBER_OF_ARGUMENTS_DOESNT_MATCH; a non-constant-string first argument is
ILLEGAL_TYPE_OF_ARGUMENT; a format name absent from the FormatFactory (a
list of registered (name, isRowOutputFormat) pairs) is UNKNOWN_FORMAT;
otherwise the function is built for that format name. -/
def buildImpl (factory : List (String × Bool)) (args : List ColumnArg) :
    Except FRErr String :=
  if args.length < 2 then Except.error FRErr.NUMBER_OF_ARGUMENTS_DOESNT_MATCH
  else if (args.headD { constString := none }).constString = none then
    Except.error FRErr.ILLEGAL_TYPE_OF_ARGUMENT
  else if (factory.map Prod.fst).contains
      ((args.headD { constString := none }).constString.getD "") then
    Except.ok ((args.headD { constString := none }).constString.getD "")
  else Except.error FRErr.UNKNOWN_FORMAT

/-- Embedded from formatRow.cpp lines 52-84: executeImpl obtains the output
format for the stored name and rejects it with BAD_ARGUMENTS before writing
any row unless it is a row output format; on a row output format it returns
the string column built by the row loop. -/
def executeImpl (factory : List (String × Bool)) (noNewline : Bool)
    (fname : String) (rows : List (List Nat)) :
    Except FRErr (List Nat × List Nat) :=
  if factory.lookup fname = some true then
    Except.ok (runFormatRow noNewline rows)
  else if factory.lookup fname = some false then
    Except.error FRErr.BAD_ARGUMENTS
  else Except.error FRErr.UNKNOWN_FORMAT

/-- C9 counterexample: for the row "a\n" (bytes 97, 10), formatRowNoNewline
stores 2 bytes (the newline overwritten by a null) while formatRow stores 3
bytes (the row plus an appended null), so the stored row including its
terminator does not have the same length as formatRow's. -/
theorem C9_counterexample :
    (formatRowStep true [] [97, 10]).1.length = 2 ∧
    (formatRowStep false [] [97, 10]).1.length = 3 ∧
    ¬ (formatRowStep true [] [97, 10]).1.length =
        (formatRowStep false [] [97, 10]).1.length := by
  refine ⟨by decide, by decide, by decide⟩

/-- C9 amended: formatRowNoNewline does not shorten the formatted row: when
the row output ends with a newline byte, that single byte is overwritten in
place by a null byte, so the stored row (including terminator) has the same
length as the row format's own output - one byte less than formatRow's
stored row, since formatRow appends an extra null; and when the row output
does not end with a newline, no terminating null byte is written for that
row at all.  The buffer-never-ends-in-newline invariant that makes the
in-place check target the current row is maintained. -/
theorem C9_amended_no_shorten (buf row : List Nat)
    (hbuf : buf.getLast? ≠ some 10) :
    (row.getLast? = some 10 →
      formatRowStep true buf row =
        (buf ++ (row.dropLast ++ [0]), buf.length + row.length) ∧
      (formatRowStep true buf row).1.length = (buf ++ row).length) ∧
    (row.getLast? ≠ some 10 →
      formatRowStep true buf row = (buf ++ row, buf.length + row.length)) ∧
    (formatRowStep true buf row).1.getLast? ≠ some 10 ∧
    formatRowStep false buf row = (buf ++ row ++ [0], buf.length + row.length + 1) := by
  have hfalse : formatRowStep false buf row =
      (buf ++ row ++ [0], buf.length + row.length + 1) := by
    unfold formatRowStep rowCallback
    rw [if_neg (by simp : ¬ false = true)]
    simp [Prod.ext_iff]
    omega
  by_cases hrow : row.getLast? = some 10
  · have hne : row ≠ [] := by
      intro h
      subst h
      simp at hrow
    have hlast : (buf ++ row).getLast? = some 10 := by
      rw [List.getLast?_append_of_ne_nil buf hne]
      exact hrow
    have hdrop : (buf ++ row).dropLast = buf ++ row.dropLast :=
      List.dropLast_append_of_ne_nil buf hne
    have hpos : 1 ≤ row.length := List.length_pos.mpr hne
    have e1 : formatRowStep true buf row =
        ((buf ++ row.dropLast) ++ [0], ((buf ++ row.dropLast) ++ [0]).length) := by
      unfold formatRowStep rowCallback
      rw [if_pos rfl, if_pos hlast, hdrop]
    refine ⟨fun _ => ⟨?_, ?_⟩, fun hc => absurd hrow hc, ?_, hfalse⟩
    · rw [e1]
      simp [List.append_assoc, Prod.ext_iff, List.length_dropLast]
      omega
    · rw [e1]
      simp [List.length_dropLast]
      omega
    · rw [e1]
      simp [List.getLast?_concat]
  · have hlast : (buf ++ row).getLast? ≠ some 10 := by
      intro hc
      by_cases hne : row = []
      · subst hne
        simp at hc
        exact hbuf hc
      · rw [List.getLast?_append_of_ne_nil buf hne] at hc
        exact hrow hc
    have e1 : formatRowStep true buf row = (buf ++ row, (buf ++ row).length) := by
      unfold formatRowStep rowCallback
      rw [if_pos rfl, if_neg hlast]
    refine ⟨fun hc => absurd hc hrow, fun _ => ?_, ?_, hfalse⟩
    · rw [e1]
      simp
    · rw [e1]
      exact hlast

theorem C9_witness :
    formatRowStep true [65] [97, 10] = ([65, 97, 0], 3) ∧
    formatRowStep false [65] [97, 10] = ([65, 97, 10, 0], 4) := by
  have h := C9_amended_no_shorten [65] [97, 10] (by decide)
  refine ⟨?_, ?_⟩
  · have h1 := (h.1 (by decide)).1
    simpa using h1
  · simpa using h.2.2.2

/-- C10: building formatRow or formatRowNoNewline fails whenever fewer than
two arguments are supplied, or the first argument is not a constant string,
or the named format is not registered in the FormatFactory; and executing
with a registered format that is not a row output format fails with
BAD_ARGUMENTS instead of returning a column. -/
theorem C10_build_execute_errors (factory : List (String × Bool))
    (args : List ColumnArg) (noNewline : Bool) (fname : String)
    (rows : List (List Nat)) :
    (args.length < 2 →
      buildImpl factory args =
        Except.error FRErr.NUMBER_OF_ARGUMENTS_DOESNT_MATCH) ∧
    (2 ≤ args.length →
      (args.headD { constString := none }).constString = none →
      buildImpl factory args = Except.error FRErr.ILLEGAL_TYPE_OF_ARGUMENT) ∧
    (∀ f, 2 ≤ args.length →
      (args.headD { constString := none }).constString = some f →
      (factory.map Prod.fst).contains f = false →
      buildImpl factory args = Except.error FRErr.UNKNOWN_FORMAT) ∧
    (factory.lookup fname = some false →
      executeImpl factory noNewline fname rows =
        Except.error FRErr.BAD_ARGUMENTS) := by
  refine ⟨?_, ?_, ?_, ?_⟩
  · intro h
    unfold buildImpl
    rw [if_pos h]
  · intro h hnone
    unfold buildImpl
    rw [if_neg (Nat.not_lt.mpr h), if_pos hnone]
  · intro f h hsome hcon
    unfold buildImpl
    rw [if_neg (Nat.not_lt.mpr h), hsome]
    have hcon' : ¬ ((factory.map Prod.fst).contains
        ((some f).getD "") = true) := by
      simp only [Option.getD_some]
      rw [hcon]
      simp
    rw [if_neg (by simp : ¬ (some f = none)), if_neg hcon']
  · intro h
    unfold executeImpl
    rw [if_neg (by simp [h] : ¬ factory.lookup fname = some true), if_pos h]

def c10factory : List (String × Bool) := [("CSV", true), ("Native", false)]

theorem C10_witness :
    buildImpl c10factory [] =
      Except.error FRErr.NUMBER_OF_ARGUMENTS_DOESNT_MATCH ∧
    buildImpl c10factory [{ constString := none }, { constString := none }] =
      Except.error FRErr.ILLEGAL_TYPE_OF_ARGUMENT ∧
    buildImpl c10factory
        [{ constString := some "XML" }, { constString := none }] =
      Except.error FRErr.UNKNOWN_FORMAT ∧
    executeImpl c10factory false "Native" [] =
      Except.error FRErr.BAD_ARGUMENTS := by
  refine ⟨?_, ?_, ?_, ?_⟩
  · exact (C10_build_execute_errors c10factory [] false "Native" []).1 (by decide)
  · exact (C10_build_execute_errors c10factory
      [{ constString := none }, { constString := none }]
      false "Native" []).2.1 (by decide) rfl
  · exact (C10_build_execute_errors c10factory
      [{ constString := some "XML" }, { constString := none }]
      false "Native" []).2.2.1 "XML" (by decide) rfl (by decide)
  · exact (C10_build_execute_errors c10factory [] false "Native" []).2.2.2
      (by decide)

end FmtRow
